import Mathlib

/-!
Shallow embedding of the `examples/python-plugin/src` fixture files of the
CodeGraphy repository, together with theorems settling the specification
claims about them.

Modules embedded:
- `config.py`        : `DEFAULT_CONFIG`, `load_config`
- `services/api.py`  : `fetch_data`, `post_data`
- `utils/format.py`  : `format_output`, `format_error`
- `utils/helpers.py` : `process_data`
- `orphan.py`        : `standalone_function`
- `main.py`          : `main`

Python dictionaries with heterogeneous values are embedded as association
lists over a small value type `PyVal`.  Python `str.upper` on the ASCII
strings used by this fixture is embedded as `pyUpper`.  The possibly
absent (`None`) argument of `process_data` is embedded as `Option`.
-/

/-- A Python value as it occurs in this fixture set: a string, an integer,
or a boolean. -/
inductive PyVal where
  | vStr (s : String)
  | vInt (n : Int)
  | vBool (b : Bool)
deriving DecidableEq, Repr

/-- A Python dict with string keys, embedded as an association list. -/
abbrev PyDict := List (String × PyVal)

/-- Dictionary lookup, `d[k]` returning `none` where Python would raise
`KeyError`. -/
def dictGet (d : PyDict) (k : String) : Option PyVal :=
  match d with
  | [] => none
  | (k0, v) :: rest => if k0 = k then some v else dictGet rest k

/-- `config.py`, module-level constant `DEFAULT_CONFIG`. -/
def DEFAULT_CONFIG : PyDict :=
  [("api_url", PyVal.vStr "https://api.example.com"),
   ("timeout", PyVal.vInt 30),
   ("debug", PyVal.vBool false)]

/-- `config.load_config` as a pure value: `DEFAULT_CONFIG.copy()` returns a
dict equal to `DEFAULT_CONFIG`. -/
def load_config : PyDict := DEFAULT_CONFIG

/-- `utils/format.py`, `format_output(text)`: the f-string
`f"[OUTPUT] {text}"`. -/
def format_output (text : String) : String :=
  "[OUTPUT] " ++ text

/-- `utils/format.py`, `format_error(message)`: the f-string
`f"[ERROR] {message}"`. -/
def format_error (message : String) : String :=
  "[ERROR] " ++ message

/-- Python `str.upper` on one character, for the ASCII range used by this
fixture set. -/
def pyCharUpper (c : Char) : Char :=
  if c.isLower then Char.ofNat (c.toNat - 32) else c

/-- Python `str.upper` on the ASCII strings used by this fixture set:
upper-cases every character. -/
def pyUpper (s : String) : String :=
  String.mk (s.data.map pyCharUpper)

/-- `utils/helpers.py`, `process_data(data)`.  The argument is a possibly
absent list of strings; `if not data:` is true exactly when `data` is `None`
or the empty list.  Otherwise `processed = [item.upper() for item in data]`
and the result is `format_output(", ".join(processed))`. -/
def process_data : Option (List String) → String
  | none => format_output "No data"
  | some xs =>
      if xs.isEmpty then format_output "No data"
      else format_output (String.intercalate ", " (xs.map pyUpper))

/-- `services/api.py`, `fetch_data(url)`: ignores its argument and returns
the hardcoded `mock_data` list. -/
def fetch_data (url : String) : List String :=
  let mock_data := ["apple", "banana", "cherry"]
  mock_data

/-- `services/api.py`, `post_data(url, payload)`: returns the dict
`{"status": "ok", "url": url}`.  The payload can be an arbitrary value and
is never inspected, so it is a type parameter here. -/
def post_data {α : Type} (url : String) (payload : α) : PyDict :=
  [("status", PyVal.vStr "ok"), ("url", PyVal.vStr url)]

/-- `orphan.py`, `standalone_function()`: returns the fixed string literal
`I\x27m all alone` (apostrophe written as an escape). -/
def standalone_function : String :=
  "I\x27m all alone"

/-- `main.py`, `main()`: loads the config, fetches data with
`settings["api_url"]`, processes it and prints the result.  The lines
written to standard output are returned as a list; `none` models the
`KeyError` / type error that Python would raise if the `api_url` lookup did
not produce a string. -/
def main_stdout : Option (List String) :=
  match dictGet load_config "api_url" with
  | some (PyVal.vStr u) => some [process_data (some (fetch_data u))]
  | _ => none

/-!
Object-level model of `config.py` for the copy semantics of
`load_config`.  The module-level object `DEFAULT_CONFIG` is one cell of a
small heap and `dict.copy()` allocates a fresh cell; dict values are
immutable strings, integers and booleans, so a shallow copy fully decouples
the new object from the original.
-/

/-- The heap of dict objects of `config.py`: the module-level
`DEFAULT_CONFIG` object, and the objects allocated by `.copy()`, addressed
by their list index. -/
structure ConfigHeap where
  defaultCell : PyDict
  allocated : List PyDict
deriving Repr

/-- Replace the element at index `i` (used to model in-place mutation of a
dict object). -/
def listModify {α : Type} (f : α → α) : Nat → List α → List α
  | _, [] => []
  | 0, x :: xs => f x :: xs
  | n + 1, x :: xs => x :: listModify f n xs

/-- `config.load_config` on the object heap: reads the `DEFAULT_CONFIG`
cell and allocates a fresh cell holding a copy of its contents, returning
the address of the new cell. -/
def load_config_heap (h : ConfigHeap) : Nat × ConfigHeap :=
  (h.allocated.length, { h with allocated := h.allocated ++ [h.defaultCell] })

/-- In-place mutation of the allocated dict object at address `a`. -/
def mutateAt (h : ConfigHeap) (a : Nat) (f : PyDict → PyDict) : ConfigHeap :=
  { h with allocated := listModify f a h.allocated }

/-- Read the allocated dict object at address `a`. -/
def readAlloc (h : ConfigHeap) (a : Nat) : Option PyDict :=
  h.allocated.get? a

/-!
The dependency graph of the fixture set, transcribed from the `import`
statements and function references of the seven source files.
-/

/-- The modules of the fixture set. -/
inductive PyModule where
  | main
  | config
  | services_api
  | utils_init
  | utils_helpers
  | utils_format
  | orphan
deriving DecidableEq, Repr

/-- Module-level import edges, one per `import` / `from ... import`
statement in the sources: `main.py` imports `config`, `services.api` and
`utils.helpers`; `services/api.py` imports `utils.helpers`;
`utils/__init__.py` imports `utils.helpers` and `utils.format`;
`utils/helpers.py` imports `utils.format`; `orphan.py` imports nothing. -/
def importEdges : List (PyModule × PyModule) :=
  [(PyModule.main, PyModule.config),
   (PyModule.main, PyModule.services_api),
   (PyModule.main, PyModule.utils_helpers),
   (PyModule.services_api, PyModule.utils_helpers),
   (PyModule.utils_init, PyModule.utils_helpers),
   (PyModule.utils_init, PyModule.utils_format),
   (PyModule.utils_helpers, PyModule.utils_format)]

/-- Function-level reference edges, one per call or re-export occurring in
the sources (caller, callee by function name). -/
def functionRefEdges : List (String × String) :=
  [("main", "load_config"),
   ("main", "fetch_data"),
   ("main", "process_data"),
   ("process_data", "format_output"),
   ("utils_init_reexport", "process_data"),
   ("utils_init_reexport", "format_output")]

/-- In-degree of a module in the import graph. -/
def moduleInDegree (m : PyModule) : Nat :=
  (importEdges.filter (fun e => decide (e.2 = m))).length

/-- Out-degree of a module in the import graph. -/
def moduleOutDegree (m : PyModule) : Nat :=
  (importEdges.filter (fun e => decide (e.1 = m))).length

/-- In-degree of a function in the reference graph. -/
def funInDegree (f : String) : Nat :=
  (functionRefEdges.filter (fun e => decide (e.2 = f))).length

/-- Out-degree of a function in the reference graph. -/
def funOutDegree (f : String) : Nat :=
  (functionRefEdges.filter (fun e => decide (e.1 = f))).length

/-!  Theorems settling the claims.  -/

/-- C1: running the entry point prints exactly the single line
`[OUTPUT] APPLE, BANANA, CHERRY` to standard output and nothing else. -/
theorem main_prints_single_line :
    main_stdout = some ["[OUTPUT] APPLE, BANANA, CHERRY"] := by
  rfl

/-- C2: for every non-empty list of strings `xs`, `process_data` returns
`format_output` of the items upper-cased and joined with `", "`, in input
order. -/
theorem process_data_nonempty (xs : List String) (h : xs ≠ []) :
    process_data (some xs) =
      format_output (String.intercalate ", " (xs.map pyUpper)) := by
  cases xs with
  | nil => exact absurd rfl h
  | cons a as => simp [process_data]

/-- Witness for C2 at the concrete input of the claim: the list
`["apple", "banana", "cherry"]` is non-empty and processes to
`[OUTPUT] APPLE, BANANA, CHERRY`. -/
theorem process_data_nonempty_witness :
    (["apple", "banana", "cherry"] : List String) ≠ [] ∧
    process_data (some ["apple", "banana", "cherry"]) =
      "[OUTPUT] APPLE, BANANA, CHERRY" := by
  refine ⟨by decide, ?_⟩
  rw [process_data_nonempty ["apple", "banana", "cherry"] (by decide)]
  rfl

/-- C3: on the empty list and on the absent value, `process_data` returns
the canned message `[OUTPUT] No data` instead of signaling an error. -/
theorem process_data_empty_or_absent :
    process_data (some []) = "[OUTPUT] No data" ∧
    process_data none = "[OUTPUT] No data" :=
  ⟨rfl, rfl⟩

/-- C4: `fetch_data` returns exactly `["apple", "banana", "cherry"]` for
every argument. -/
theorem fetch_data_constant (url : String) :
    fetch_data url = ["apple", "banana", "cherry"] :=
  rfl

/-- C5: `load_config` returns a mapping equal to
`{api_url: "https://api.example.com", timeout: 30, debug: false}`, and the
keys `api_url` (text), `timeout` (integer) and `debug` (boolean) are always
present with those typed values. -/
theorem load_config_value :
    load_config = [("api_url", PyVal.vStr "https://api.example.com"),
                   ("timeout", PyVal.vInt 30),
                   ("debug", PyVal.vBool false)] ∧
    dictGet load_config "api_url" = some (PyVal.vStr "https://api.example.com") ∧
    dictGet load_config "timeout" = some (PyVal.vInt 30) ∧
    dictGet load_config "debug" = some (PyVal.vBool false) :=
  ⟨rfl, rfl, rfl, rfl⟩

/-- C6: `load_config` returns a fresh, independent copy on each call: after
any in-place mutation `f` of the dict object returned by one call, a
subsequent call still returns the unaltered `DEFAULT_CONFIG` contents,
whatever other objects (`rest`) are on the heap. -/
theorem load_config_fresh_copy (rest : List PyDict) (f : PyDict → PyDict) :
    readAlloc
      (load_config_heap
        (mutateAt (load_config_heap ⟨DEFAULT_CONFIG, rest⟩).2
          (load_config_heap ⟨DEFAULT_CONFIG, rest⟩).1 f)).2
      (load_config_heap
        (mutateAt (load_config_heap ⟨DEFAULT_CONFIG, rest⟩).2
          (load_config_heap ⟨DEFAULT_CONFIG, rest⟩).1 f)).1
      = some DEFAULT_CONFIG := by
  simp [readAlloc, load_config_heap, mutateAt, List.getElem?_concat_length]

/-- C7: `post_data` returns exactly the mapping
`{status: "ok", url: url}` with the url echoed back, for every url and
every payload of any type. -/
theorem post_data_echoes_url {α : Type} (url : String) (payload : α) :
    post_data url payload =
      [("status", PyVal.vStr "ok"), ("url", PyVal.vStr url)] :=
  rfl

/-- C8: `standalone_function` returns exactly the fixed string, and the
orphan module and its function have in-degree 0 and out-degree 0 in the
dependency graph transcribed from the fixture sources. -/
theorem standalone_function_isolated :
    standalone_function = "I\x27m all alone" ∧
    moduleInDegree PyModule.orphan = 0 ∧
    moduleOutDegree PyModule.orphan = 0 ∧
    funInDegree "standalone_function" = 0 ∧
    funOutDegree "standalone_function" = 0 := by
  refine ⟨rfl, rfl, rfl, ?_, ?_⟩ <;> decide

/-- C9: for every input, the string returned by `process_data` begins with
the `[OUTPUT] ` prefix, since both branches produce their result through
`format_output`. -/
theorem process_data_output_prefixed (data : Option (List String)) :
    ∃ rest, process_data data = "[OUTPUT] " ++ rest := by
  match data with
  | none => exact ⟨"No data", rfl⟩
  | some [] => exact ⟨"No data", rfl⟩
  | some (x :: xs) =>
      exact ⟨String.intercalate ", " ((x :: xs).map pyUpper), rfl⟩

/-- C10: the result of `post_data` depends only on its url argument: any
two payloads, of any types, give the same result. -/
theorem post_data_ignores_payload {α β : Type} (url : String)
    (p1 : α) (p2 : β) :
    post_data url p1 = post_data url p2 :=
  rfl
